import Mathlib

/-!
Shallow embedding of the caching/dedup core of the ai-career-gap backend
(`backend/index.js`, `POST /api/analyze` handler, together with the shape
check performed by `backend/services/ai.js` / `analyzeGap`).

Texts and hash digests are modelled as `List Char`.  The SHA-256 digest
function is an abstract parameter of the environment (`Env.hash`); claims
that depend on collision-freeness or on the fixed digest length state those
cryptographic idealizations as explicit hypotheses.  All external
interactions of one handler invocation (database availability at read and at
write time, a concurrent writer racing the insert, the AI response, the
generated ids and timestamps, the clock) are captured in an `Env` record, so
`resolve` is a pure function from an environment, a server state and the two
request-body values to a result, a new server state and an instrumentation
trace.
-/

/-- Texts, digests and cache keys are lists of characters. -/
abbrev Str := List Char

/-- One learning step as produced by the AI (`{title, description}` pair). -/
structure LearningStep where
  title : Str
  description : Str
deriving DecidableEq, Repr

/-- The payload shape produced by `analyzeGap` after JSON parsing
(`missingSkills`, `learningSteps`, `interviewQuestions`). -/
structure AiResult where
  missingSkills : List Str
  learningSteps : List LearningStep
  interviewQuestions : List Str
deriving DecidableEq, Repr

/-- One persisted / cached analysis record: `{id, createdAt, resumeHash,
jobDescHash, missingSkills, learningSteps, interviewQuestions}` as built at
lines 110–119 of `backend/index.js` and as stored by `prisma.analysis`. -/
structure AnalysisRecord where
  id : Nat
  createdAt : Nat
  resumeHash : Str
  jobDescHash : Str
  missingSkills : List Str
  learningSteps : List LearningStep
  interviewQuestions : List Str
deriving DecidableEq, Repr

/-- A JSON value that may appear in the request body for `resumeText` /
`jobDescText`: a string, a number, a boolean, a plain object (no `length`
property), `null`, or absent (`undefined`). -/
inductive JsValue
  | str (s : Str)
  | num (n : Int)
  | boolean (b : Bool)
  | obj
  | nullv
  | undef
deriving DecidableEq, Repr

/-- JavaScript falsiness, as tested by `!resumeText` at line 48:
`undefined`, `null`, the empty string, `0` and `false` are falsy. -/
def jsFalsy : JsValue → Bool
  | .str s => s.isEmpty
  | .num n => n == 0
  | .boolean b => !b
  | .obj => false
  | .nullv => true
  | .undef => true

/-- The JavaScript comparison `x.length < 50` at line 55: a string exposes
its length; on every other modelled value `x.length` is `undefined` and
`undefined < 50` evaluates to `false`. -/
def jsLengthLt50 : JsValue → Bool
  | .str s => s.length < 50
  | _ => false

/-- White space as recognised by `String.prototype.trim`. -/
def isJsWhitespace (c : Char) : Bool :=
  c == ' ' || c == '\t' || c == '\n' || c == '\r' || c == '\x0B' || c == '\x0C'

/-- JavaScript `s.trim()`: drop white space from both ends. -/
def jsTrim (s : Str) : Str :=
  ((s.dropWhile isJsWhitespace).reverse.dropWhile isJsWhitespace).reverse

/-- JavaScript `s.toLowerCase()` (character-wise lowering). -/
def jsToLower (s : Str) : Str :=
  s.map Char.toLower

/-- The normalization applied before hashing at lines 63–64:
`text.trim().toLowerCase()`. -/
def normalizeText (s : Str) : Str :=
  jsToLower (jsTrim s)

/-- The composite cache key of line 65: `resumeHash + ":" + jobDescHash`,
where each digest is the hash of the normalized text. -/
def deriveKey (hash : Str → Str) (resumeText jobDescText : Str) : Str :=
  hash (normalizeText resumeText) ++ ':' :: hash (normalizeText jobDescText)

/-- The compound database key `(resumeHash, jobDescHash)` used by
`prisma.analysis.findUnique` / `create`. -/
def dbKey (hash : Str → Str) (resumeText jobDescText : Str) : Str × Str :=
  (hash (normalizeText resumeText), hash (normalizeText jobDescText))

/-- Association-list lookup (first binding wins), modelling `Map.get` and the
unique-key point lookup of the database table. -/
def alookup {α β : Type} [DecidableEq α] (k : α) : List (α × β) → Option β
  | [] => none
  | (k', v) :: rest => if k' = k then some v else alookup k rest

/-- Association-list overwrite-or-insert, modelling `Map.set` and a row
insert/overwrite keyed by a unique key. -/
def aset {α β : Type} [DecidableEq α] (k : α) (v : β) : List (α × β) → List (α × β)
  | [] => [(k, v)]
  | (k', v') :: rest => if k' = k then (k, v) :: rest else (k', v') :: aset k v rest

/-- One memory-cache slot: `{ data, timestamp }` as stored at lines 94 and
139. -/
structure MemEntry where
  data : AnalysisRecord
  timestamp : Nat
deriving DecidableEq, Repr

/-- The mutable state shared across requests: the in-process `memoryCache`
map and the durable `analysis` table. -/
structure ServerState where
  memoryCache : List (Str × MemEntry)
  db : List ((Str × Str) × AnalysisRecord)
deriving DecidableEq, Repr

/-- `CACHE_TTL = 1000 * 60 * 60 * 24` (24 hours in milliseconds). -/
def CACHE_TTL : Nat := 1000 * 60 * 60 * 24

/-- The Zod schema check of `backend/services/ai.js`: between 1 and 10
missing skills, exactly 3 learning steps, exactly 3 interview questions. -/
def schemaOk (a : AiResult) : Bool :=
  1 ≤ a.missingSkills.length && a.missingSkills.length ≤ 10 &&
    a.learningSteps.length == 3 && a.interviewQuestions.length == 3

/-- Outcome of the `analyzeGap` call as classified by its own error
handling: success with a validated payload, a Zod failure (thrown message
contains "malformed"), or any other failure (thrown message starts with
"AI Service Failed"). -/
inductive ComputeOutcome
  | ok (a : AiResult)
  | malformed
  | serviceFailed
deriving DecidableEq, Repr

/-- `analyzeGap` of `backend/services/ai.js`, with the model call abstracted:
`none` stands for a generation/parse failure (anything thrown before the Zod
check), `some a` for a successfully parsed JSON payload which is then
validated against the schema.  A schema failure throws the "malformed"
message, every other failure the "AI Service Failed" message. -/
def analyzeGap (response : Option AiResult) : ComputeOutcome :=
  match response with
  | none => .serviceFailed
  | some a => if schemaOk a then .ok a else .malformed

/-- All external nondeterminism observed by one handler invocation. -/
structure Env where
  hash : Str → Str
  now : Nat
  readAvail : Bool
  writeAvail : Bool
  interlope : Option AnalysisRecord
  aiResponse : Option AiResult
  genId : Nat
  dbGenId : Nat
  dbGenCreatedAt : Nat

/-- HTTP outcome of the handler: a 200 payload (`record` plus the `cached`
flag) or a structured error `{status, code}`. -/
inductive HandlerResult
  | ok (record : AnalysisRecord) (cached : Bool)
  | err (status : Nat) (code : String)
deriving DecidableEq, Repr

/-- Instrumentation: which externally visible steps the invocation reached
(key derivation completed at line 65, `findUnique` attempted, `analyzeGap`
invoked, `create` attempted). -/
structure Trace where
  derivedKey : Bool
  dbReadAttempted : Bool
  computed : Bool
  dbWriteAttempted : Bool
deriving DecidableEq, Repr

/-- The all-false trace (invocation ended before the hashing step). -/
def emptyTrace : Trace :=
  ⟨false, false, false, false⟩

/-- Result of one invocation: HTTP outcome, the server state after the call,
and the instrumentation trace. -/
structure ResolveOut where
  result : HandlerResult
  state : ServerState
  trace : Trace
deriving Repr

/-- The `responseData` object as initially built at lines 110–119:
locally generated `id` (`crypto.randomUUID()`) and `createdAt`
(`new Date()`), the two digests, and the AI payload. -/
def localRecordOf (env : Env) (rh jh : Str) (a : AiResult) : AnalysisRecord :=
  ⟨env.genId, env.now, rh, jh, a.missingSkills, a.learningSteps,
    a.interviewQuestions⟩

/-- The row as returned by a successful `prisma.analysis.create` (line 123):
database-generated `id` and `createdAt`, same content columns. -/
def dbRecordOf (env : Env) (rh jh : Str) (a : AiResult) : AnalysisRecord :=
  ⟨env.dbGenId, env.dbGenCreatedAt, rh, jh, a.missingSkills, a.learningSteps,
    a.interviewQuestions⟩

/-- The `prisma.analysis.create` attempt of lines 122–135, given the row
found under the compound key at insert time: a present row means the insert
fails with a uniqueness-constraint violation, which the catch at lines
133–135 only logs — `responseData` stays the locally built record and the
store keeps the existing row.  An absent row means the insert succeeds and
`responseData` becomes the persisted row (line 132). -/
def createStep (env : Env) (rh jh : Str) (a : AiResult)
    (dbW : List ((Str × Str) × AnalysisRecord)) :
    Option AnalysisRecord → AnalysisRecord × List ((Str × Str) × AnalysisRecord)
  | some _ => (localRecordOf env rh jh a, dbW)
  | none => (dbRecordOf env rh jh a, aset (rh, jh) (dbRecordOf env rh jh a) dbW)

/-- Lines 109–136: the persist step of the compute path.  When the database
was available at read time, the environment may first interpose a concurrent
writer's row under the same key (`interlope`); then, if the store is still
reachable at write time, the insert of lines 122–135 runs against that
state; an unreachable store at write time is the generic `saveError` case,
also only logged.  When the read already failed, the whole block is skipped
(`if (dbAvailable)` at line 121). -/
def persistOutcome (env : Env) (st : ServerState) (rh jh : Str) (a : AiResult)
    (dbAvailable : Bool) : AnalysisRecord × List ((Str × Str) × AnalysisRecord) :=
  if dbAvailable then
    let dbW := (env.interlope).elim st.db (fun w => aset (rh, jh) w st.db)
    if env.writeAvail then createStep env rh jh a dbW (alookup (rh, jh) dbW)
    else (localRecordOf env rh jh a, dbW)
  else (localRecordOf env rh jh a, st.db)

/-- Lines 105–141 given the outcome of the `analyzeGap` call: a failure is
classified by the catch block at lines 143–165 (422 `AI_VALIDATION_ERROR`
for a message containing "malformed", 503 `AI_SERVICE_ERROR` for one
containing "AI Service Failed") with no state change; on success the persist
step runs and the memory cache is then written regardless of database status
(line 139), answering `cached: false`. -/
def computeStep (env : Env) (st : ServerState) (rh jh cacheKey : Str)
    (dbAvailable : Bool) : ComputeOutcome → ResolveOut
  | .malformed =>
      ⟨.err 422 "AI_VALIDATION_ERROR", st, ⟨true, true, true, false⟩⟩
  | .serviceFailed =>
      ⟨.err 503 "AI_SERVICE_ERROR", st, ⟨true, true, true, false⟩⟩
  | .ok a =>
      let step := persistOutcome env st rh jh a dbAvailable
      ⟨.ok step.1 false,
        ⟨aset cacheKey ⟨step.1, env.now⟩ st.memoryCache, step.2⟩,
        ⟨true, true, true, dbAvailable⟩⟩

def resolveCompute (env : Env) (st : ServerState) (rh jh cacheKey : Str)
    (dbAvailable : Bool) : ResolveOut :=
  computeStep env st rh jh cacheKey dbAvailable (analyzeGap env.aiResponse)

/-- Lines 91–99 given the row found by `findUnique`: on a hit, write the row
back into the memory cache and answer `cached: true`; on a miss, fall
through to compute with `dbAvailable = true`. -/
def dbStep (env : Env) (st : ServerState) (rh jh cacheKey : Str) :
    Option AnalysisRecord → ResolveOut
  | some existing =>
      ⟨.ok existing true,
        ⟨aset cacheKey ⟨existing, env.now⟩ st.memoryCache, st.db⟩,
        ⟨true, true, false, false⟩⟩
  | none => resolveCompute env st rh jh cacheKey true

/-- Lines 77–103: probe the database.  If `findUnique` throws
(`readAvail = false`), record `dbAvailable = false` and fall through to
compute without touching the store. -/
def resolveDb (env : Env) (st : ServerState) (rh jh cacheKey : Str) : ResolveOut :=
  if env.readAvail then dbStep env st rh jh cacheKey (alookup (rh, jh) st.db)
  else resolveCompute env st rh jh cacheKey false

/-- Lines 67–75 given the memory-cache slot found under the composite key: a
stored slot is served only while `now - timestamp < CACHE_TTL`; an absent or
expired slot falls through to the database probe. -/
def memStep (env : Env) (st : ServerState) (rh jh cacheKey : Str) :
    Option MemEntry → ResolveOut
  | some entry =>
      if env.now - entry.timestamp < CACHE_TTL then
        ⟨.ok entry.data true, st, ⟨true, false, false, false⟩⟩
      else
        resolveDb env st rh jh cacheKey
  | none => resolveDb env st rh jh cacheKey

/-- Lines 62–141 for two string inputs: derive the digests and composite
key (lines 63–65), then probe the memory cache. -/
def resolveHashed (env : Env) (st : ServerState) (rs js : Str) : ResolveOut :=
  memStep env st (env.hash (normalizeText rs)) (env.hash (normalizeText js))
    (deriveKey env.hash rs js)
    (alookup (deriveKey env.hash rs js) st.memoryCache)

/-- The `POST /api/analyze` handler (lines 43–165).  Validation first:
missing/falsy inputs, then the `length < 50` check, each answering 400
`VALIDATION_ERROR` before any hashing.  Past validation, a non-string value
makes `.trim()` throw a `TypeError`, which the catch-all maps to 500
`INTERNAL_ERROR` with no state change. -/
def resolve (env : Env) (st : ServerState) (resumeText jobDescText : JsValue) :
    ResolveOut :=
  if jsFalsy resumeText || jsFalsy jobDescText then
    ⟨.err 400 "VALIDATION_ERROR", st, emptyTrace⟩
  else if jsLengthLt50 resumeText || jsLengthLt50 jobDescText then
    ⟨.err 400 "VALIDATION_ERROR", st, emptyTrace⟩
  else
    match resumeText, jobDescText with
    | .str rs, .str js => resolveHashed env st rs js
    | _, _ => ⟨.err 500 "INTERNAL_ERROR", st, emptyTrace⟩

/-- A schema-valid AI payload for concrete runs: one missing skill, exactly
three learning steps, exactly three interview questions. -/
def aiOkW : AiResult :=
  ⟨[['s']], [⟨['t'], ['d']⟩, ⟨['t'], ['d']⟩, ⟨['t'], ['d']⟩],
    [['q'], ['q'], ['q']]⟩

/-- Baseline concrete environment: identity digest, clock 0, both tiers
available, no concurrent writer, schema-valid AI response. -/
def envW : Env :=
  ⟨id, 0, true, true, none, some aiOkW, 1, 2, 3⟩

/-- A 50-character resume text for concrete runs. -/
def rsW : Str := List.replicate 50 'a'

/-- A 50-character job-description text for concrete runs. -/
def jsW : Str := List.replicate 50 'b'

/-- Baseline environment one millisecond later, for second calls. -/
def envW2 : Env :=
  ⟨id, 1, true, true, none, some aiOkW, 4, 5, 6⟩

/-- Environment whose AI call fails outright (nothing parseable returned). -/
def envFailW : Env :=
  ⟨id, 0, true, true, none, none, 1, 2, 3⟩

/-- Environment whose AI call returns a shape-invalid payload (no learning
steps, no interview questions). -/
def envBadW : Env :=
  ⟨id, 0, true, true, none, some ⟨[['s']], [], []⟩, 1, 2, 3⟩

/-- Environment probing at exactly the TTL boundary after time 0, so a slot
inserted at time 0 is expired. -/
def envExpiredW : Env :=
  ⟨id, CACHE_TTL, true, true, none, some aiOkW, 7, 8, 9⟩

/-- A cached record for memory-cache witness runs. -/
def recW : AnalysisRecord :=
  ⟨7, 0, rsW, jsW, [['s']], [⟨['t'], ['d']⟩, ⟨['t'], ['d']⟩, ⟨['t'], ['d']⟩],
    [['q'], ['q'], ['q']]⟩

/-- A state whose memory cache holds `recW` under the baseline key, inserted
at time 0, with an empty persistent store. -/
def stMemW : ServerState :=
  ⟨[(deriveKey id rsW jsW, ⟨recW, 0⟩)], []⟩

/-- A concurrent writer's record for the C2 runs; its content differs from
what the coordinator computes locally. -/
def c2WriterRec : AnalysisRecord :=
  ⟨99, 77, rsW, jsW, [['w']], [⟨['t'], ['d']⟩, ⟨['t'], ['d']⟩, ⟨['t'], ['d']⟩],
    [['q'], ['q'], ['q']]⟩

/-- Environment of the C2 runs: both tiers available, but a concurrent
writer inserts `c2WriterRec` under the same key before the coordinator's
insert reaches the store. -/
def c2Env : Env :=
  ⟨id, 0, true, true, some c2WriterRec, some aiOkW, 1, 2, 3⟩

/-- The record the coordinator computes locally in the baseline concrete
runs (local id 1, clock 0, identity digests). -/
def localRecW : AnalysisRecord :=
  ⟨1, 0, rsW, jsW, [['s']], [⟨['t'], ['d']⟩, ⟨['t'], ['d']⟩, ⟨['t'], ['d']⟩],
    [['q'], ['q'], ['q']]⟩

/-- Environment of the degraded first call of the C3 and C10 runs: the
persistent tier is unreachable at read time. -/
def c3Env1 : Env :=
  ⟨id, 0, false, true, none, some aiOkW, 1, 2, 3⟩

/-- Environment of the C3 second call, one millisecond later, with the
persistent tier recovered. -/
def c3Env2 : Env :=
  ⟨id, 1, true, true, none, some aiOkW, 4, 5, 6⟩

/-- Environment of the C3 amended-claim second call: recovered store, probed
at the TTL boundary so the memory slot from time 0 is expired. -/
def c3EnvLate : Env :=
  ⟨id, CACHE_TTL, true, true, none, some aiOkW, 4, 5, 6⟩

theorem alookup_aset_self {α β : Type} [DecidableEq α] (k : α) (v : β)
    (l : List (α × β)) : alookup k (aset k v l) = some v := by
  induction l with
  | nil => simp [aset, alookup]
  | cons p rest ih =>
      obtain ⟨k', v'⟩ := p
      by_cases h : k' = k <;> simp [aset, alookup, h, ih]

theorem resolve_valid_str (env : Env) (st : ServerState) (rs js : Str)
    (h50r : 50 ≤ rs.length) (h50j : 50 ≤ js.length) :
    resolve env st (.str rs) (.str js) = resolveHashed env st rs js := by
  have hr : rs.isEmpty = false := by
    cases rs with
    | nil => simp at h50r
    | cons a t => rfl
  have hj : js.isEmpty = false := by
    cases js with
    | nil => simp at h50j
    | cons a t => rfl
  have hr2 : ¬ (rs.length < 50) := by omega
  have hj2 : ¬ (js.length < 50) := by omega
  simp [resolve, jsFalsy, jsLengthLt50, hr, hj, hr2, hj2]

theorem jsTrim_sandwich (c d : Char) (x : Str)
    (hc : isJsWhitespace c = false) (hd : isJsWhitespace d = false) :
    jsTrim (c :: x ++ [d]) = c :: x ++ [d] := by
  unfold jsTrim
  rw [List.cons_append, List.dropWhile_cons]
  rw [hc]
  simp only [Bool.false_eq_true, if_false]
  rw [← List.cons_append, List.reverse_append]
  simp only [List.reverse_cons, List.reverse_nil, List.nil_append,
    List.singleton_append]
  rw [List.dropWhile_cons]
  rw [hd]
  simp only [Bool.false_eq_true, if_false]
  simp

theorem map_toLower_fixed (m : Str) (hm : ∀ ch ∈ m, Char.toLower ch = ch) :
    m.map Char.toLower = m := by
  induction m with
  | nil => rfl
  | cons ch t ih =>
      simp only [List.map_cons]
      rw [hm ch (by simp), ih (fun x hx => hm x (by simp [hx]))]

theorem normalizeText_sandwich (c d : Char) (x : Str)
    (hc : isJsWhitespace c = false) (hd : isJsWhitespace d = false) :
    normalizeText (c :: x ++ [d]) =
      Char.toLower c :: x.map Char.toLower ++ [Char.toLower d] := by
  unfold normalizeText jsToLower
  rw [jsTrim_sandwich c d x hc hd]
  simp [List.map_append]

/-- C4: a request with `resumeText` or `jobDescText` missing, or with either
below 50 characters, is answered 400 `VALIDATION_ERROR` with the server
state unchanged and an all-false trace: no key derivation, no tier probe, no
compute, no cache write. -/
theorem c4_validation_before_hashing (env : Env) (st : ServerState)
    (rv jv : JsValue)
    (h : rv = .undef ∨ jv = .undef ∨
      (∃ s, rv = .str s ∧ s.length < 50) ∨ (∃ s, jv = .str s ∧ s.length < 50)) :
    resolve env st rv jv = ⟨.err 400 "VALIDATION_ERROR", st, emptyTrace⟩ := by
  unfold resolve
  split
  · rfl
  · split
    · rfl
    · rcases h with h | h | ⟨s, rfl, hs⟩ | ⟨s, rfl, hs⟩ <;>
        simp_all [jsFalsy, jsLengthLt50, List.isEmpty_iff]

theorem c4_witness :
    resolve envW ⟨[], []⟩ (.str (List.replicate 40 'a')) (.str jsW) =
      ⟨.err 400 "VALIDATION_ERROR", ⟨[], []⟩, emptyTrace⟩ :=
  c4_validation_before_hashing envW ⟨[], []⟩ _ _
    (Or.inr (Or.inr (Or.inl ⟨List.replicate 40 'a', rfl, by decide⟩)))

/-- C9: a truthy non-string request value with no string length below 50
passes both validation checks and the request then fails with the generic
500 `INTERNAL_ERROR` (the `.trim()` TypeError caught by the catch-all), not
with `VALIDATION_ERROR`. -/
theorem c9_nonstring_internal_error (env : Env) (st : ServerState)
    (rv jv : JsValue)
    (hfr : jsFalsy rv = false) (hfj : jsFalsy jv = false)
    (hlr : jsLengthLt50 rv = false) (hlj : jsLengthLt50 jv = false)
    (hns : (∀ s, rv ≠ .str s) ∨ (∀ s, jv ≠ .str s)) :
    resolve env st rv jv = ⟨.err 500 "INTERNAL_ERROR", st, emptyTrace⟩ := by
  unfold resolve
  rw [hfr, hfj, hlr, hlj]
  simp only [Bool.or_self, Bool.false_eq_true, if_false]
  cases rv with
  | str s =>
      cases jv with
      | str t =>
          rcases hns with h | h
          · exact absurd rfl (h s)
          · exact absurd rfl (h t)
      | num n => rfl
      | boolean b => rfl
      | obj => rfl
      | nullv => rfl
      | undef => rfl
  | num n => cases jv <;> rfl
  | boolean b => cases jv <;> rfl
  | obj => cases jv <;> rfl
  | nullv => cases jv <;> rfl
  | undef => cases jv <;> rfl

theorem c9_witness :
    resolve envW ⟨[], []⟩ (.num 5) (.str jsW) =
      ⟨.err 500 "INTERNAL_ERROR", ⟨[], []⟩, emptyTrace⟩ :=
  c9_nonstring_internal_error envW ⟨[], []⟩ (.num 5) (.str jsW)
    (by decide) (by decide) (by decide) (by decide)
    (Or.inl (fun s h => by cases h))

/-- C5: key derivation is deterministic and normalizes only the edges — two
input pairs whose texts agree after trim-and-lowercase derive the same
composite key, while two texts that are identical except for an internal
stretch of case-invariant characters (whitespace or punctuation) bounded by
the same non-whitespace endpoints derive different keys, provided the digest
function is collision-free (the idealization of SHA-256 the code relies
on). -/
theorem c5_key_normalization (hash : Str → Str)
    (hinj : Function.Injective hash) :
    (∀ r1 j1 r2 j2 : Str, normalizeText r1 = normalizeText r2 →
        normalizeText j1 = normalizeText j2 →
        deriveKey hash r1 j1 = deriveKey hash r2 j2)
    ∧ (∀ (c d : Char) (a m1 m2 b j : Str),
        isJsWhitespace c = false → isJsWhitespace d = false →
        (∀ ch ∈ m1, Char.toLower ch = ch) → (∀ ch ∈ m2, Char.toLower ch = ch) →
        m1 ≠ m2 →
        deriveKey hash (c :: (a ++ m1 ++ b) ++ [d]) j ≠
          deriveKey hash (c :: (a ++ m2 ++ b) ++ [d]) j) := by
  constructor
  · intro r1 j1 r2 j2 h1 h2
    unfold deriveKey
    rw [h1, h2]
  · intro c d a m1 m2 b j hc hd hm1 hm2 hne heq
    apply hne
    unfold deriveKey at heq
    have h1 : hash (normalizeText (c :: (a ++ m1 ++ b) ++ [d])) =
        hash (normalizeText (c :: (a ++ m2 ++ b) ++ [d])) :=
      List.append_cancel_right heq
    have h2 := hinj h1
    rw [normalizeText_sandwich c d _ hc hd,
      normalizeText_sandwich c d _ hc hd] at h2
    simp only [List.map_append, map_toLower_fixed m1 hm1,
      map_toLower_fixed m2 hm2] at h2
    simp only [List.cons_append, List.cons.injEq, List.append_assoc,
      true_and] at h2
    have h3 := List.append_cancel_left h2
    exact List.append_cancel_right h3

theorem c5_witness :
    deriveKey id ([' ', 'A'] : Str) (['j'] : Str) =
        deriveKey id (['a'] : Str) (['j'] : Str) ∧
      deriveKey id (['x', ' ', 'y'] : Str) (['j'] : Str) ≠
        deriveKey id (['x', ' ', ' ', 'y'] : Str) (['j'] : Str) :=
  ⟨(c5_key_normalization id Function.injective_id).1 [' ', 'A'] ['j'] ['a'] ['j']
      (by decide) rfl,
    (c5_key_normalization id Function.injective_id).2 'x' 'y' [] [' ']
      [' ', ' '] [] ['j'] (by decide) (by decide) (by decide) (by decide)
      (by decide)⟩

/-- C6: the composite key is the ordered pair of digests and is never
swapped — for texts with distinct normalized content (and fixed-length,
collision-free digests, the idealization of SHA-256), deriving the key with
the roles swapped yields a different key. -/
theorem c6_ordered_pair (hash : Str → Str) (r j : Str)
    (hinj : Function.Injective hash)
    (hlen : (hash (normalizeText r)).length = (hash (normalizeText j)).length)
    (hne : normalizeText r ≠ normalizeText j) :
    deriveKey hash r j ≠ deriveKey hash j r := by
  intro heq
  unfold deriveKey at heq
  exact hne (hinj (List.append_inj heq hlen).1)

theorem c6_witness :
    deriveKey id (['a'] : Str) (['b'] : Str) ≠
      deriveKey id (['b'] : Str) (['a'] : Str) :=
  c6_ordered_pair id ['a'] ['b'] Function.injective_id (by decide) (by decide)

theorem resolve_to_memStep (env : Env) (st : ServerState) (rs js : Str)
    (h50r : 50 ≤ rs.length) (h50j : 50 ≤ js.length) :
    resolve env st (.str rs) (.str js) =
      memStep env st (env.hash (normalizeText rs)) (env.hash (normalizeText js))
        (deriveKey env.hash rs js)
        (alookup (deriveKey env.hash rs js) st.memoryCache) := by
  rw [resolve_valid_str env st rs js h50r h50j]; rfl

/-- C8: when the external compute collaborator fails, the failure propagates
as the failure of `resolve` and nothing is cached in either tier (the state
is returned unchanged); a shape failure surfaces as 422
`AI_VALIDATION_ERROR`, a machine-readable code distinct from the generic
503 `AI_SERVICE_ERROR` compute-unavailable failure. -/
theorem c8_compute_failure (env : Env) (st : ServerState) (rs js : Str)
    (h50r : 50 ≤ rs.length) (h50j : 50 ≤ js.length)
    (hmem : alookup (deriveKey env.hash rs js) st.memoryCache = none)
    (hdb : alookup (dbKey env.hash rs js) st.db = none) :
    (env.aiResponse = none →
      resolve env st (.str rs) (.str js) =
        ⟨.err 503 "AI_SERVICE_ERROR", st, ⟨true, true, true, false⟩⟩)
    ∧ (∀ a, env.aiResponse = some a → schemaOk a = false →
      resolve env st (.str rs) (.str js) =
        ⟨.err 422 "AI_VALIDATION_ERROR", st, ⟨true, true, true, false⟩⟩)
    ∧ (HandlerResult.err 422 "AI_VALIDATION_ERROR" ≠
        HandlerResult.err 503 "AI_SERVICE_ERROR") := by
  have hdb' : alookup (env.hash (normalizeText rs), env.hash (normalizeText js))
      st.db = none := hdb
  refine ⟨?_, ?_, by decide⟩
  · intro ha
    rw [resolve_to_memStep env st rs js h50r h50j, hmem]
    simp only [memStep]
    unfold resolveDb
    cases h : env.readAvail
    · simp only [Bool.false_eq_true, if_false]
      unfold resolveCompute
      rw [ha]
      rfl
    · simp only [if_true]
      rw [hdb']
      simp only [dbStep]
      unfold resolveCompute
      rw [ha]
      rfl
  · intro a ha hbad
    rw [resolve_to_memStep env st rs js h50r h50j, hmem]
    simp only [memStep]
    unfold resolveDb
    cases h : env.readAvail
    · simp only [Bool.false_eq_true, if_false]
      unfold resolveCompute
      rw [ha]
      simp [analyzeGap, hbad, computeStep]
    · simp only [if_true]
      rw [hdb']
      simp only [dbStep]
      unfold resolveCompute
      rw [ha]
      simp [analyzeGap, hbad, computeStep]

theorem c8_witness :
    (resolve envFailW ⟨[], []⟩ (.str rsW) (.str jsW) =
      ⟨.err 503 "AI_SERVICE_ERROR", ⟨[], []⟩, ⟨true, true, true, false⟩⟩) ∧
    (resolve envBadW ⟨[], []⟩ (.str rsW) (.str jsW) =
      ⟨.err 422 "AI_VALIDATION_ERROR", ⟨[], []⟩, ⟨true, true, true, false⟩⟩) :=
  ⟨(c8_compute_failure envFailW ⟨[], []⟩ rsW jsW (by decide) (by decide)
      rfl rfl).1 rfl,
    (c8_compute_failure envBadW ⟨[], []⟩ rsW jsW (by decide) (by decide)
      rfl rfl).2.1 ⟨[['s']], [], []⟩ rfl (by decide)⟩

/-- C7: a memory-cache slot is served if and only if it is found and
strictly younger than the fixed 24-hour TTL — a fresh slot answers
`cached: true` without touching the store or compute, while a slot at or
past the TTL is never served: with the persistent store empty, such a
resolve reaches compute again and answers freshly. -/
theorem c7_ttl (env : Env) (st : ServerState) (rs js : Str)
    (entry : MemEntry)
    (h50r : 50 ≤ rs.length) (h50j : 50 ≤ js.length)
    (hfound : alookup (deriveKey env.hash rs js) st.memoryCache = some entry) :
    (env.now - entry.timestamp < CACHE_TTL →
      resolve env st (.str rs) (.str js) =
        ⟨.ok entry.data true, st, ⟨true, false, false, false⟩⟩)
    ∧ (CACHE_TTL ≤ env.now - entry.timestamp →
      env.readAvail = true →
      alookup (dbKey env.hash rs js) st.db = none →
      ∀ a, env.aiResponse = some a → schemaOk a = true →
      (resolve env st (.str rs) (.str js)).trace.computed = true ∧
        ∃ rec, (resolve env st (.str rs) (.str js)).result = .ok rec false) := by
  constructor
  · intro hfresh
    rw [resolve_to_memStep env st rs js h50r h50j, hfound]
    simp only [memStep]
    rw [if_pos hfresh]
  · intro hexp hread hdbm a ha hs
    have hdb' : alookup (env.hash (normalizeText rs), env.hash (normalizeText js))
        st.db = none := hdbm
    rw [resolve_to_memStep env st rs js h50r h50j, hfound]
    simp only [memStep]
    rw [if_neg (not_lt.mpr hexp)]
    unfold resolveDb
    rw [hread]
    simp only [if_true]
    rw [hdb']
    simp only [dbStep]
    unfold resolveCompute
    rw [ha]
    have hred : analyzeGap (some a) = .ok a := by simp [analyzeGap, hs]
    rw [hred]
    exact ⟨rfl, _, rfl⟩

theorem c7_witness :
    (resolve envW2 stMemW (.str rsW) (.str jsW) =
      ⟨.ok recW true, stMemW, ⟨true, false, false, false⟩⟩) ∧
    ((resolve envExpiredW stMemW (.str rsW) (.str jsW)).trace.computed = true ∧
      ∃ rec, (resolve envExpiredW stMemW (.str rsW) (.str jsW)).result =
        .ok rec false) :=
  ⟨(c7_ttl envW2 stMemW rsW jsW ⟨recW, 0⟩ (by decide) (by decide)
      (by decide)).1 (by decide),
    (c7_ttl envExpiredW stMemW rsW jsW ⟨recW, 0⟩ (by decide) (by decide)
      (by decide)).2 (by decide) rfl rfl aiOkW rfl (by decide)⟩

theorem resolve_degraded_eq (env : Env) (st : ServerState) (rs js : Str)
    (a : AiResult)
    (h50r : 50 ≤ rs.length) (h50j : 50 ≤ js.length)
    (hmem : alookup (deriveKey env.hash rs js) st.memoryCache = none)
    (hread : env.readAvail = false)
    (ha : env.aiResponse = some a) (hs : schemaOk a = true) :
    resolve env st (.str rs) (.str js) =
      ⟨.ok (localRecordOf env (env.hash (normalizeText rs))
          (env.hash (normalizeText js)) a) false,
        ⟨aset (deriveKey env.hash rs js)
            ⟨localRecordOf env (env.hash (normalizeText rs))
              (env.hash (normalizeText js)) a, env.now⟩ st.memoryCache,
          st.db⟩,
        ⟨true, true, true, false⟩⟩ := by
  rw [resolve_to_memStep env st rs js h50r h50j, hmem]
  simp only [memStep]
  unfold resolveDb
  rw [hread]
  simp only [Bool.false_eq_true, if_false]
  unfold resolveCompute
  rw [ha]
  have hred : analyzeGap (some a) = .ok a := by simp [analyzeGap, hs]
  rw [hred]
  rfl

/-- C10: if the persistent-tier lookup failed with unavailability
(`readAvail = false`), the same resolve call never attempts a
persistent-tier write — even if the store would accept a write by then —
so the store is returned unchanged (`st.db`), the insert attempt flag stays
false, and only the memory cache is written. -/
theorem c10_degraded_no_write (env : Env) (st : ServerState) (rs js : Str)
    (a : AiResult)
    (h50r : 50 ≤ rs.length) (h50j : 50 ≤ js.length)
    (hmem : alookup (deriveKey env.hash rs js) st.memoryCache = none)
    (hread : env.readAvail = false)
    (ha : env.aiResponse = some a) (hs : schemaOk a = true) :
    resolve env st (.str rs) (.str js) =
      ⟨.ok (localRecordOf env (env.hash (normalizeText rs))
          (env.hash (normalizeText js)) a) false,
        ⟨aset (deriveKey env.hash rs js)
            ⟨localRecordOf env (env.hash (normalizeText rs))
              (env.hash (normalizeText js)) a, env.now⟩ st.memoryCache,
          st.db⟩,
        ⟨true, true, true, false⟩⟩ :=
  resolve_degraded_eq env st rs js a h50r h50j hmem hread ha hs

theorem c10_witness :
    resolve c3Env1 ⟨[], []⟩ (.str rsW) (.str jsW) =
      ⟨.ok (localRecordOf c3Env1 (c3Env1.hash (normalizeText rsW))
          (c3Env1.hash (normalizeText jsW)) aiOkW) false,
        ⟨aset (deriveKey c3Env1.hash rsW jsW)
            ⟨localRecordOf c3Env1 (c3Env1.hash (normalizeText rsW))
              (c3Env1.hash (normalizeText jsW)) aiOkW, c3Env1.now⟩ [],
          []⟩,
        ⟨true, true, true, false⟩⟩ :=
  c10_degraded_no_write c3Env1 ⟨[], []⟩ rsW jsW aiOkW (by decide) (by decide)
    rfl rfl rfl (by decide)

/-- C2 (amended): when the persistent insert on the compute path hits a
uniqueness-constraint violation (a concurrent writer inserted the same key
after the miss was observed), the violation is never surfaced — the call
still succeeds with the freshly computed result — and the store keeps the
concurrent writer's row; but the coordinator does NOT re-read the existing
row: it serves and memory-caches its own locally computed record, so the
two tiers can simultaneously hold different payloads for the same key. -/
theorem c2_violation_swallowed (env : Env) (st : ServerState) (rs js : Str)
    (a : AiResult) (w : AnalysisRecord)
    (h50r : 50 ≤ rs.length) (h50j : 50 ≤ js.length)
    (hmem : alookup (deriveKey env.hash rs js) st.memoryCache = none)
    (hread : env.readAvail = true) (hwrite : env.writeAvail = true)
    (hdb : alookup (dbKey env.hash rs js) st.db = none)
    (hint : env.interlope = some w)
    (ha : env.aiResponse = some a) (hs : schemaOk a = true) :
    resolve env st (.str rs) (.str js) =
      ⟨.ok (localRecordOf env (env.hash (normalizeText rs))
          (env.hash (normalizeText js)) a) false,
        ⟨aset (deriveKey env.hash rs js)
            ⟨localRecordOf env (env.hash (normalizeText rs))
              (env.hash (normalizeText js)) a, env.now⟩ st.memoryCache,
          aset (dbKey env.hash rs js) w st.db⟩,
        ⟨true, true, true, true⟩⟩ := by
  have hdb' : alookup (env.hash (normalizeText rs), env.hash (normalizeText js))
      st.db = none := hdb
  rw [resolve_to_memStep env st rs js h50r h50j, hmem]
  simp only [memStep]
  unfold resolveDb
  rw [hread]
  simp only [if_true]
  rw [hdb']
  simp only [dbStep]
  unfold resolveCompute
  rw [ha]
  have hred : analyzeGap (some a) = .ok a := by simp [analyzeGap, hs]
  rw [hred]
  simp only [computeStep]
  unfold persistOutcome
  rw [hint, hwrite]
  simp only [Option.elim, if_true]
  rw [alookup_aset_self]
  simp only [createStep]
  rfl

theorem c2_witness :
    resolve c2Env ⟨[], []⟩ (.str rsW) (.str jsW) =
      ⟨.ok (localRecordOf c2Env (c2Env.hash (normalizeText rsW))
          (c2Env.hash (normalizeText jsW)) aiOkW) false,
        ⟨aset (deriveKey c2Env.hash rsW jsW)
            ⟨localRecordOf c2Env (c2Env.hash (normalizeText rsW))
              (c2Env.hash (normalizeText jsW)) aiOkW, c2Env.now⟩ [],
          aset (dbKey c2Env.hash rsW jsW) c2WriterRec []⟩,
        ⟨true, true, true, true⟩⟩ :=
  c2_violation_swallowed c2Env ⟨[], []⟩ rsW jsW aiOkW c2WriterRec
    (by decide) (by decide) rfl rfl rfl rfl rfl rfl (by decide)

/-- C2 counterexample: a concrete race in which the persistent store ends up
holding the concurrent writer's row while the memory cache and the caller
get the locally computed row — two different payloads stored simultaneously
for one key, and no re-read of the existing persistent entry. -/
theorem c2_counterexample :
    (resolve c2Env ⟨[], []⟩ (.str rsW) (.str jsW)).result =
      .ok localRecW false ∧
    alookup (dbKey c2Env.hash rsW jsW)
        (resolve c2Env ⟨[], []⟩ (.str rsW) (.str jsW)).state.db =
      some c2WriterRec ∧
    alookup (deriveKey c2Env.hash rsW jsW)
        (resolve c2Env ⟨[], []⟩ (.str rsW) (.str jsW)).state.memoryCache =
      some ⟨localRecW, 0⟩ ∧
    localRecW ≠ c2WriterRec := by decide

theorem resolve_fresh_result (env : Env) (rs js : Str) (a : AiResult)
    (h50r : 50 ≤ rs.length) (h50j : 50 ≤ js.length)
    (ha : env.aiResponse = some a) (hs : schemaOk a = true) :
    ∃ rec : AnalysisRecord,
      (resolve env ⟨[], []⟩ (.str rs) (.str js)).result = .ok rec false ∧
      (resolve env ⟨[], []⟩ (.str rs) (.str js)).state.memoryCache =
        [(deriveKey env.hash rs js, ⟨rec, env.now⟩)] := by
  rw [resolve_to_memStep env ⟨[], []⟩ rs js h50r h50j]
  rw [show alookup (deriveKey env.hash rs js)
      (⟨[], []⟩ : ServerState).memoryCache = none from rfl]
  simp only [memStep]
  unfold resolveDb
  have hred : analyzeGap (some a) = .ok a := by simp [analyzeGap, hs]
  cases h : env.readAvail
  · simp only [Bool.false_eq_true, if_false]
    unfold resolveCompute
    rw [ha, hred]
    exact ⟨_, rfl, rfl⟩
  · simp only [if_true]
    rw [show alookup (env.hash (normalizeText rs), env.hash (normalizeText js))
        (⟨[], []⟩ : ServerState).db = none from rfl]
    simp only [dbStep]
    unfold resolveCompute
    rw [ha, hred]
    exact ⟨_, rfl, rfl⟩

/-- C1: from a fresh state, two sequential resolves with the same valid
texts (same digest function, second call within the TTL) answer
`cached: false` with some record on the first call and `cached: true` with
the identical record on the second call — payload content, id and createdAt
are unchanged, only the flag differs. -/
theorem c1_cache_round_trip (env1 env2 : Env) (rs js : Str) (a : AiResult)
    (h50r : 50 ≤ rs.length) (h50j : 50 ≤ js.length)
    (ha : env1.aiResponse = some a) (hs : schemaOk a = true)
    (hhash : env2.hash = env1.hash)
    (httl : env2.now - env1.now < CACHE_TTL) :
    ∃ rec : AnalysisRecord,
      (resolve env1 ⟨[], []⟩ (.str rs) (.str js)).result = .ok rec false ∧
      (resolve env2 (resolve env1 ⟨[], []⟩ (.str rs) (.str js)).state
          (.str rs) (.str js)).result = .ok rec true := by
  obtain ⟨rec, hres, hmem⟩ := resolve_fresh_result env1 rs js a h50r h50j ha hs
  refine ⟨rec, hres, ?_⟩
  rw [resolve_to_memStep env2 _ rs js h50r h50j]
  rw [hmem, hhash]
  rw [show alookup (deriveKey env1.hash rs js)
      [(deriveKey env1.hash rs js, (⟨rec, env1.now⟩ : MemEntry))] =
      some ⟨rec, env1.now⟩ from by simp [alookup]]
  simp only [memStep]
  rw [if_pos httl]

theorem c1_witness :
    ∃ rec : AnalysisRecord,
      (resolve envW ⟨[], []⟩ (.str rsW) (.str jsW)).result = .ok rec false ∧
      (resolve envW2 (resolve envW ⟨[], []⟩ (.str rsW) (.str jsW)).state
          (.str rsW) (.str jsW)).result = .ok rec true :=
  c1_cache_round_trip envW envW2 rsW jsW aiOkW (by decide) (by decide) rfl
    (by decide) rfl (by decide)

theorem resolve_expired_recompute (env : Env) (st : ServerState) (rs js : Str)
    (a : AiResult) (entry : MemEntry)
    (h50r : 50 ≤ rs.length) (h50j : 50 ≤ js.length)
    (hfound : alookup (deriveKey env.hash rs js) st.memoryCache = some entry)
    (hexp : CACHE_TTL ≤ env.now - entry.timestamp)
    (hread : env.readAvail = true)
    (hdbm : alookup (dbKey env.hash rs js) st.db = none)
    (ha : env.aiResponse = some a) (hs : schemaOk a = true) :
    (resolve env st (.str rs) (.str js)).trace.computed = true ∧
    ∃ rec, (resolve env st (.str rs) (.str js)).result = .ok rec false := by
  have hdb' : alookup (env.hash (normalizeText rs), env.hash (normalizeText js))
      st.db = none := hdbm
  rw [resolve_to_memStep env st rs js h50r h50j, hfound]
  simp only [memStep]
  rw [if_neg (not_lt.mpr hexp)]
  unfold resolveDb
  rw [hread]
  simp only [if_true]
  rw [hdb']
  simp only [dbStep]
  unfold resolveCompute
  rw [ha]
  have hred : analyzeGap (some a) = .ok a := by simp [analyzeGap, hs]
  rw [hred]
  exact ⟨rfl, _, rfl⟩

/-- C3 (amended): with the persistent tier unavailable throughout a resolve
from a fresh state, the call still succeeds end-to-end (degraded mode, the
unavailability is never surfaced) and nothing is durably stored; but since
the memory cache was populated, a subsequent resolve after recovery serves
the memory copy — it invokes compute afresh (succeeding rather than
erroring) only once the memory entry has expired (or is gone, e.g. after a
process restart). -/
theorem c3_degraded_then_recovery (env1 env2 : Env) (rs js : Str)
    (a1 a2 : AiResult)
    (h50r : 50 ≤ rs.length) (h50j : 50 ≤ js.length)
    (hread1 : env1.readAvail = false)
    (ha1 : env1.aiResponse = some a1) (hs1 : schemaOk a1 = true)
    (hhash : env2.hash = env1.hash)
    (hread2 : env2.readAvail = true)
    (ha2 : env2.aiResponse = some a2) (hs2 : schemaOk a2 = true) :
    (∃ rec1, (resolve env1 ⟨[], []⟩ (.str rs) (.str js)).result =
      .ok rec1 false) ∧
    (resolve env1 ⟨[], []⟩ (.str rs) (.str js)).state.db = [] ∧
    (CACHE_TTL ≤ env2.now - env1.now →
      (resolve env2 (resolve env1 ⟨[], []⟩ (.str rs) (.str js)).state
          (.str rs) (.str js)).trace.computed = true ∧
      ∃ rec2, (resolve env2 (resolve env1 ⟨[], []⟩ (.str rs) (.str js)).state
          (.str rs) (.str js)).result = .ok rec2 false) := by
  have h1 := resolve_degraded_eq env1 ⟨[], []⟩ rs js a1 h50r h50j rfl hread1 ha1 hs1
  refine ⟨⟨_, by rw [h1]⟩, by rw [h1], ?_⟩
  intro hexp
  have hfound : alookup (deriveKey env2.hash rs js)
      (resolve env1 ⟨[], []⟩ (.str rs) (.str js)).state.memoryCache =
      some ⟨localRecordOf env1 (env1.hash (normalizeText rs))
        (env1.hash (normalizeText js)) a1, env1.now⟩ := by
    rw [h1, hhash]
    exact alookup_aset_self _ _ _
  exact resolve_expired_recompute env2 _ rs js a2 _ h50r h50j hfound hexp
    hread2 (by rw [h1]; rfl) ha2 hs2

/-- C3 counterexample: concretely, after a resolve in which the store was
unreachable, a second resolve one millisecond later with the store
recovered answers from the memory cache — `analyzeGap` is not invoked
(`computed = false`) and the response says `cached: true`, contradicting
the claim that the second call invokes compute afresh. -/
theorem c3_counterexample :
    (resolve c3Env1 ⟨[], []⟩ (.str rsW) (.str jsW)).result =
      .ok localRecW false ∧
    (resolve c3Env2 (resolve c3Env1 ⟨[], []⟩ (.str rsW) (.str jsW)).state
        (.str rsW) (.str jsW)).trace.computed = false ∧
    (resolve c3Env2 (resolve c3Env1 ⟨[], []⟩ (.str rsW) (.str jsW)).state
        (.str rsW) (.str jsW)).result = .ok localRecW true := by decide

theorem c3_witness :
    (∃ rec1, (resolve c3Env1 ⟨[], []⟩ (.str rsW) (.str jsW)).result =
      .ok rec1 false) ∧
    (resolve c3Env1 ⟨[], []⟩ (.str rsW) (.str jsW)).state.db = [] ∧
    ((resolve c3EnvLate (resolve c3Env1 ⟨[], []⟩ (.str rsW) (.str jsW)).state
        (.str rsW) (.str jsW)).trace.computed = true ∧
      ∃ rec2, (resolve c3EnvLate
          (resolve c3Env1 ⟨[], []⟩ (.str rsW) (.str jsW)).state
          (.str rsW) (.str jsW)).result = .ok rec2 false) :=
  ⟨(c3_degraded_then_recovery c3Env1 c3EnvLate rsW jsW aiOkW aiOkW
      (by decide) (by decide) rfl rfl (by decide) rfl rfl rfl (by decide)).1,
    (c3_degraded_then_recovery c3Env1 c3EnvLate rsW jsW aiOkW aiOkW
      (by decide) (by decide) rfl rfl (by decide) rfl rfl rfl (by decide)).2.1,
    (c3_degraded_then_recovery c3Env1 c3EnvLate rsW jsW aiOkW aiOkW
      (by decide) (by decide) rfl rfl (by decide) rfl rfl rfl (by decide)).2.2
      (by decide)⟩
